import Mathlib

/-!
Shallow embedding of the `nightfall::input` input-mapping engine
(`src/game/src/input/InputMapping.{h,cpp}`, `InputDevices.{h,cpp}`).

Floats (`float`) are modelled as rationals `ℚ`; C++ `unordered_map` is an
association list with unique keys, looked up with `List.lookup`; `throw` of
`std::runtime_error` is `Except.error` with the thrown message.  All names
follow the source.
-/

namespace Nightfall.Input

/-- `DeviceKind` from `InputDevices.h`. -/
inductive DeviceKind
  | Keyboard
  | Mouse
  | Gamepad
deriving DecidableEq, Repr

/-- `BindingKind` from `InputMapping.h`. -/
inductive BindingKind
  | Button
  | Axis
  | Pointer
deriving DecidableEq, Repr

/-- `AxisInterpretation` from `InputMapping.h`. -/
inductive AxisInterpretation
  | Analog
  | Digital
deriving DecidableEq, Repr

/-- `ButtonState` from `InputDevices.h` (defaults: not pressed). -/
structure ButtonState where
  pressed : Bool := false
  was_pressed : Bool := false
deriving DecidableEq, Repr

/-- `ButtonState::just_pressed`. -/
def ButtonState.just_pressed (b : ButtonState) : Bool :=
  b.pressed && !b.was_pressed

/-- `ButtonState::just_released`. -/
def ButtonState.just_released (b : ButtonState) : Bool :=
  !b.pressed && b.was_pressed

/-- `RawKeyboardState` from `InputDevices.h`: key name to button state. -/
structure RawKeyboardState where
  keys : List (String × ButtonState) := []
deriving DecidableEq, Repr

/-- `RawKeyboardState::get`: missing keys resolve to the default state. -/
def RawKeyboardState.get (s : RawKeyboardState) (key : String) : ButtonState :=
  (s.keys.lookup key).getD {}

/-- `RawMouseState` from `InputDevices.h`. -/
structure RawMouseState where
  buttons : List (String × ButtonState) := []
  position_x : ℚ := 0
  position_y : ℚ := 0
  delta_x : ℚ := 0
  delta_y : ℚ := 0
  wheel_delta : ℚ := 0
deriving DecidableEq, Repr

/-- `RawMouseState::get`. -/
def RawMouseState.get (s : RawMouseState) (button : String) : ButtonState :=
  (s.buttons.lookup button).getD {}

/-- `RawGamepadState` from `InputDevices.h`. -/
structure RawGamepadState where
  buttons : List (String × ButtonState) := []
  axes : List (String × ℚ) := []
  previous_axes : List (String × ℚ) := []
deriving DecidableEq, Repr

/-- `RawGamepadState::get_button`. -/
def RawGamepadState.get_button (s : RawGamepadState) (button : String) : ButtonState :=
  (s.buttons.lookup button).getD {}

/-- `RawGamepadState::axis_value` (default value 0). -/
def RawGamepadState.axis_value (s : RawGamepadState) (axis : String) : ℚ :=
  (s.axes.lookup axis).getD 0

/-- `RawInputState` from `InputDevices.h`. -/
structure RawInputState where
  keyboard : RawKeyboardState := {}
  mouse : RawMouseState := {}
  gamepad : RawGamepadState := {}
  delta_time : ℚ := 0
deriving DecidableEq, Repr

/-- `BindingDescriptor` from `InputMapping.h`, with the same field defaults. -/
structure BindingDescriptor where
  device : DeviceKind := DeviceKind.Keyboard
  kind : BindingKind := BindingKind.Button
  control : String := ""
  scale : ℚ := 1
  deadzone : ℚ := 1/10
  toggle : Bool := false
  interpretation : AxisInterpretation := AxisInterpretation.Analog
deriving DecidableEq, Repr

/-- `ActionBindingSpec` from `InputMapping.h`. -/
structure ActionBindingSpec where
  id : String := ""
  bindings : List BindingDescriptor := []
  smoothing_window : ℚ := 0
  analog_threshold : ℚ := 1/5
deriving DecidableEq, Repr

/-- `InputMappingSpec` from `InputMapping.h`. -/
structure InputMappingSpec where
  actions : List ActionBindingSpec := []
deriving DecidableEq, Repr

/-- `ActionState` from `InputMapping.h` (the neutral default state). -/
structure ActionState where
  value : ℚ := 0
  active : Bool := false
  triggered : Bool := false
  released : Bool := false
deriving DecidableEq, Repr

/-- `InputMapping::RuntimeBinding`. -/
structure RuntimeBinding where
  descriptor : BindingDescriptor
deriving DecidableEq, Repr

/-- `InputMapping::RuntimeAction` with its member defaults (the `mutable`
per-action memory cells become plain fields updated functionally). -/
structure RuntimeAction where
  spec : ActionBindingSpec := {}
  bindings : List RuntimeBinding := []
  smoothed_value : ℚ := 0
  previous_value : ℚ := 0
  previous_active : Bool := false
  toggle_state : Bool := false
  toggle_scale : ℚ := 1
deriving DecidableEq, Repr

/-- `std::clamp(x, lo, hi)`: `lo` when `x < lo`, `hi` when `hi < x`, else `x`. -/
def clampQ (x lo hi : ℚ) : ℚ :=
  if x < lo then lo else if hi < x then hi else x

/-- `std::fabs`. -/
def fabsQ (x : ℚ) : ℚ :=
  if x < 0 then -x else x

/-- `extract_axis_value` from `InputMapping.cpp`. -/
def extract_axis_value (descriptor : BindingDescriptor) (state : RawInputState) : ℚ :=
  match descriptor.device with
  | DeviceKind.Keyboard =>
      if (state.keyboard.get descriptor.control).pressed then descriptor.scale else 0
  | DeviceKind.Mouse =>
      if descriptor.control = "x" ∨ descriptor.control = "delta_x" then
        state.mouse.delta_x * descriptor.scale
      else if descriptor.control = "y" ∨ descriptor.control = "delta_y" then
        state.mouse.delta_y * descriptor.scale
      else if descriptor.control = "wheel" ∨ descriptor.control = "scroll" then
        state.mouse.wheel_delta * descriptor.scale
      else if descriptor.control = "position_x" then
        state.mouse.position_x * descriptor.scale
      else if descriptor.control = "position_y" then
        state.mouse.position_y * descriptor.scale
      else 0
  | DeviceKind.Gamepad =>
      state.gamepad.axis_value descriptor.control * descriptor.scale

/-- `extract_toggle_transition` from `InputMapping.cpp`. -/
def extract_toggle_transition (descriptor : BindingDescriptor) (state : RawInputState) : Bool :=
  if !descriptor.toggle then false
  else
    match descriptor.device with
    | DeviceKind.Keyboard => (state.keyboard.get descriptor.control).just_pressed
    | DeviceKind.Mouse => (state.mouse.get descriptor.control).just_pressed
    | DeviceKind.Gamepad => (state.gamepad.get_button descriptor.control).just_pressed

/-- `extract_button_pressed` from `InputMapping.cpp`. -/
def extract_button_pressed (descriptor : BindingDescriptor) (state : RawInputState) : Bool :=
  match descriptor.device with
  | DeviceKind.Keyboard => (state.keyboard.get descriptor.control).pressed
  | DeviceKind.Mouse => (state.mouse.get descriptor.control).pressed
  | DeviceKind.Gamepad => (state.gamepad.get_button descriptor.control).pressed

/-- `extract_button_triggered` from `InputMapping.cpp`. -/
def extract_button_triggered (descriptor : BindingDescriptor) (state : RawInputState) : Bool :=
  match descriptor.device with
  | DeviceKind.Keyboard => (state.keyboard.get descriptor.control).just_pressed
  | DeviceKind.Mouse => (state.mouse.get descriptor.control).just_pressed
  | DeviceKind.Gamepad => (state.gamepad.get_button descriptor.control).just_pressed

/-- `extract_button_released` from `InputMapping.cpp`. -/
def extract_button_released (descriptor : BindingDescriptor) (state : RawInputState) : Bool :=
  match descriptor.device with
  | DeviceKind.Keyboard => (state.keyboard.get descriptor.control).just_released
  | DeviceKind.Mouse => (state.mouse.get descriptor.control).just_released
  | DeviceKind.Gamepad => (state.gamepad.get_button descriptor.control).just_released

/-- The loop-local variables of `InputMapping::compute_state` (lines 541-550). -/
structure EvalAccum where
  value : ℚ
  any_pressed : Bool
  any_triggered : Bool
  any_released : Bool
  has_toggle : Bool
  toggle_value : Bool
  toggle_scale : ℚ
  toggle_turned_on : Bool
  toggle_turned_off : Bool
deriving DecidableEq, Repr

/-- One iteration of the per-binding loop of `InputMapping::compute_state`
(lines 552-599).  `previous_value` is the action memory read by the digital
axis branch. -/
def fold_binding (previous_value : ℚ) (state : RawInputState)
    (acc : EvalAccum) (runtime_binding : RuntimeBinding) : EvalAccum :=
  let descriptor := runtime_binding.descriptor
  if descriptor.kind = BindingKind.Button then
    let pressed := extract_button_pressed descriptor state
    let acc := { acc with
      any_pressed := acc.any_pressed || pressed
      any_triggered := acc.any_triggered || extract_button_triggered descriptor state
      any_released := acc.any_released || extract_button_released descriptor state }
    if descriptor.toggle then
      let acc := { acc with has_toggle := true, toggle_scale := descriptor.scale }
      if extract_toggle_transition descriptor state then
        let previous_toggle := acc.toggle_value
        let toggle_value := !previous_toggle
        { acc with
          toggle_value := toggle_value
          toggle_turned_on :=
            if !previous_toggle && toggle_value then true else acc.toggle_turned_on
          toggle_turned_off :=
            if previous_toggle && !toggle_value then true else acc.toggle_turned_off }
      else acc
    else
      { acc with value := acc.value + (if pressed then descriptor.scale else 0) }
  else
    let axis_value := extract_axis_value descriptor state
    let axis_value := if fabsQ axis_value ≤ descriptor.deadzone then 0 else axis_value
    if descriptor.interpretation = AxisInterpretation.Digital then
      let active := decide (fabsQ axis_value > descriptor.deadzone)
      { acc with
        any_pressed := acc.any_pressed || active
        any_triggered :=
          if active && decide (fabsQ previous_value ≤ descriptor.deadzone) then true
          else acc.any_triggered
        any_released :=
          if !active && decide (fabsQ previous_value > descriptor.deadzone) then true
          else acc.any_released
        value :=
          if active then
            acc.value + descriptor.scale * (if axis_value ≥ 0 then 1 else -1)
          else acc.value }
    else
      { acc with
        value := acc.value + axis_value
        any_pressed :=
          if fabsQ axis_value > descriptor.deadzone then true else acc.any_pressed }

/-- The per-binding loop of `InputMapping::compute_state` run over all of an
action's bindings, from the initial locals of lines 541-550. -/
def accumulate (action : RuntimeAction) (state : RawInputState) : EvalAccum :=
  action.bindings.foldl (fold_binding action.previous_value state)
    { value := 0, any_pressed := false, any_triggered := false, any_released := false
      has_toggle := false, toggle_value := action.toggle_state
      toggle_scale := action.toggle_scale
      toggle_turned_on := false, toggle_turned_off := false }

/-- `InputMapping::compute_state` (lines 540-645): the emitted `ActionState`
together with the updated runtime memory (the writes to the `mutable` fields
at lines 602-603, 615-616 and 641-642). -/
def compute_state (action : RuntimeAction) (state : RawInputState) :
    ActionState × RuntimeAction :=
  let acc := accumulate action state
  let value := if acc.has_toggle && acc.toggle_value then acc.value + acc.toggle_scale
    else acc.value
  let any_pressed := acc.any_pressed || (acc.has_toggle && acc.toggle_value)
  let any_triggered := acc.any_triggered || (acc.has_toggle && acc.toggle_turned_on)
  let any_released := acc.any_released || (acc.has_toggle && acc.toggle_turned_off)
  let new_toggle_state := acc.has_toggle && acc.toggle_value
  let new_toggle_scale := if acc.has_toggle then acc.toggle_scale else 1
  let value := clampQ value (-1) 1
  let smoothed :=
    if action.spec.smoothing_window > 0 ∧ state.delta_time > 0 then
      action.previous_value +
        (value - action.previous_value) *
          clampQ (state.delta_time / action.spec.smoothing_window) 0 1
    else value
  let active := any_pressed || decide (fabsQ smoothed > 1/1000)
  let triggered :=
    if !any_triggered && decide (action.spec.analog_threshold > 0) then
      decide (fabsQ smoothed ≥ action.spec.analog_threshold) &&
        decide (fabsQ action.previous_value < action.spec.analog_threshold)
    else any_triggered
  let released :=
    if !any_released && decide (action.spec.analog_threshold > 0) then
      decide (fabsQ smoothed ≤ action.spec.analog_threshold * (1/2)) &&
        decide (fabsQ action.previous_value > action.spec.analog_threshold * (1/2))
    else any_released
  ({ value := smoothed, active := active, triggered := triggered, released := released },
   { action with
     toggle_state := new_toggle_state
     toggle_scale := new_toggle_scale
     previous_value := smoothed
     previous_active := active })

/-- The engine's action table `InputMapping::_actions`
(`std::unordered_map<std::string, RuntimeAction>` as an association list with
unique keys; the list order is irrelevant to lookup). -/
def ActionTable : Type :=
  List (String × RuntimeAction)

instance : DecidableEq ActionTable :=
  inferInstanceAs (DecidableEq (List (String × RuntimeAction)))

instance : Membership (String × RuntimeAction) ActionTable :=
  inferInstanceAs (Membership (String × RuntimeAction) (List (String × RuntimeAction)))

/-- `unordered_map::emplace`: inserts only when the key is absent (a later
emplace with an existing key changes nothing). -/
def ActionTable.emplace (table : ActionTable) (id : String)
    (runtime : RuntimeAction) : ActionTable :=
  if (List.lookup id table).isSome then table else (id, runtime) :: table

/-- Lookup in the action table. -/
def ActionTable.find (table : ActionTable) (id : String) : Option RuntimeAction :=
  List.lookup id table

/-- Replace the runtime entry of a key already in the table (in-place mutation
through the `unordered_map` iterator in the C++). -/
def ActionTable.replace (table : ActionTable) (id : String)
    (runtime : RuntimeAction) : ActionTable :=
  table.map fun entry => if entry.1 == id then (entry.1, runtime) else entry

/-- The fresh runtime cell `InputMapping::load` builds for one action
(lines 502-507): the spec and bindings are copied, all memory fields take
their defaults. -/
def fresh_runtime (action : ActionBindingSpec) : RuntimeAction :=
  { spec := action, bindings := action.bindings.map RuntimeBinding.mk }

/-- `InputMapping::load` (lines 499-510): clear the table, then `emplace` one
fresh runtime per spec entry. -/
def load (spec : InputMappingSpec) : ActionTable :=
  spec.actions.foldl (fun table action => table.emplace action.id (fresh_runtime action)) []

/-- `InputMapping::rebind` (lines 512-522): unknown ids throw
`"unknown action: " + action`; known ids have their binding list replaced. -/
def rebind (table : ActionTable) (action : String)
    (bindings : List BindingDescriptor) : Except String ActionTable :=
  match table.find action with
  | none => Except.error ("unknown action: " ++ action)
  | some runtime =>
      Except.ok (table.replace action
        { runtime with bindings := bindings.map RuntimeBinding.mk })

/-- `InputMapping::evaluate_action` (lines 532-538): unknown actions yield the
neutral `ActionState{}`; known actions run `compute_state`, whose writes to
the `mutable` memory fields are the returned updated table. -/
def evaluate_action (table : ActionTable) (action : String) (state : RawInputState) :
    ActionState × ActionTable :=
  match table.find action with
  | none => ({}, table)
  | some runtime =>
      let result := compute_state runtime state
      (result.1, table.replace action result.2)

/-- `InputMapping::evaluate` (lines 524-530): one `compute_state` per action;
the emitted states and the table of updated memories. -/
def evaluate (table : ActionTable) (state : RawInputState) :
    List (String × ActionState) × ActionTable :=
  (table.map fun entry => (entry.1, (compute_state entry.2 state).1),
   table.map fun entry => (entry.1, (compute_state entry.2 state).2))

/-- A sequence of frames evaluated against one action's runtime memory:
each frame's `compute_state` feeds the next (the `mutable` fields carried
across frames). -/
def run_frames (action : RuntimeAction) (frames : List RawInputState) :
    List ActionState × RuntimeAction :=
  match frames with
  | [] => ([], action)
  | frame :: rest =>
      let current := compute_state action frame
      let later := run_frames current.2 rest
      (current.1 :: later.1, later.2)

/-! ## Binding-table ingestion (`InputMappingSpec::FromJson`, lines 433-497)

The structured document is modelled as a `Json` value (the parsed form of the
anonymous `JsonValue` in `InputMapping.cpp`; the recursive-descent text reader
that produces it is the spec's out-of-scope structured-config reader).
`std::runtime_error` propagation is the `Except String` monad. -/

/-- The `JsonValue` variant of `InputMapping.cpp` (object keys unique,
`emplace` keeps the first occurrence). -/
inductive Json
  | null : Json
  | bool : Bool → Json
  | num : ℚ → Json
  | str : String → Json
  | arr : List Json → Json
  | obj : List (String × Json) → Json
deriving Repr

/-- Models `std::stod` on the decimal literal forms the repository's
documents use: optional sign, digits, optional fraction, optional exponent;
`none` when no digits start the text (`std::stod` throws there). -/
def stod_model (s : String) : Option ℚ :=
  let cs := s.toList
  let sign : ℚ := if cs.take 1 = ['-'] then -1 else 1
  let cs := if cs.take 1 = ['-'] ∨ cs.take 1 = ['+'] then cs.drop 1 else cs
  let int_digits := cs.takeWhile Char.isDigit
  let cs := cs.dropWhile Char.isDigit
  let frac_digits :=
    if cs.take 1 = ['.'] then (cs.drop 1).takeWhile Char.isDigit else []
  let cs := if cs.take 1 = ['.'] then (cs.drop 1).dropWhile Char.isDigit else cs
  if int_digits = [] ∧ frac_digits = [] then none
  else
    let digits_to_nat : List Char → Nat :=
      fun ds => ds.foldl (fun n c => n * 10 + (c.toNat - 48)) 0
    let mantissa : ℚ :=
      (digits_to_nat int_digits : ℚ) +
        (digits_to_nat frac_digits : ℚ) / ((10 : ℚ) ^ frac_digits.length)
    let exp : Option ℤ :=
      if cs.take 1 = ['e'] ∨ cs.take 1 = ['E'] then
        let cs := cs.drop 1
        let esign : ℤ := if cs.take 1 = ['-'] then -1 else 1
        let cs := if cs.take 1 = ['-'] ∨ cs.take 1 = ['+'] then cs.drop 1 else cs
        let eds := cs.takeWhile Char.isDigit
        if eds = [] then some 0 else some (esign * (digits_to_nat eds : ℤ))
      else some 0
    match exp with
    | none => none
    | some e => some (sign * mantissa * (10 : ℚ) ^ e)

/-- `JsonValue::as_bool` with its fallback argument. -/
def Json.as_bool (j : Json) (fallback : Bool) : Bool :=
  match j with
  | Json.bool b => b
  | Json.num q => decide (q ≠ 0)
  | Json.str s => s == "true" || s == "1"
  | _ => fallback

/-- `JsonValue::as_number` with its fallback argument. -/
def Json.as_number (j : Json) (fallback : ℚ) : ℚ :=
  match j with
  | Json.num q => q
  | Json.bool b => if b then 1 else 0
  | Json.str s => (stod_model s).getD fallback
  | _ => fallback

/-- `JsonValue::as_string` (throws on non-strings). -/
def Json.as_string : Json → Except String String
  | Json.str s => Except.ok s
  | _ => Except.error "expected JSON string"

/-- `JsonValue::as_array`. -/
def Json.as_array : Json → Except String (List Json)
  | Json.arr items => Except.ok items
  | _ => Except.error "expected JSON array"

/-- `JsonValue::as_object`. -/
def Json.as_object : Json → Except String (List (String × Json))
  | Json.obj fields => Except.ok fields
  | _ => Except.error "expected JSON object"

/-- `parse_binding_kind` from `InputMapping.cpp`. -/
def parse_binding_kind (text : String) : BindingKind :=
  if text = "axis" then BindingKind.Axis
  else if text = "pointer" then BindingKind.Pointer
  else BindingKind.Button

/-- `parse_interpretation` from `InputMapping.cpp`. -/
def parse_interpretation (text : String) : AxisInterpretation :=
  if text = "digital" ∨ text = "binary" then AxisInterpretation.Digital
  else AxisInterpretation.Analog

/-- `parse_device_kind` from `InputMapping.cpp`. -/
def parse_device_kind (text : String) : DeviceKind :=
  if text = "mouse" then DeviceKind.Mouse
  else if text = "gamepad" ∨ text = "controller" then DeviceKind.Gamepad
  else DeviceKind.Keyboard

/-- The inner binding loop of `InputMappingSpec::FromJson` (lines 466-493):
one `BindingDescriptor` from one binding entry, fields read in source order. -/
def binding_from_json (binding_value : Json) : Except String BindingDescriptor := do
  let binding_object ← binding_value.as_object
  let descriptor : BindingDescriptor := {}
  let descriptor ←
    match binding_object.lookup "device" with
    | some v => do
        let s ← v.as_string
        pure { descriptor with device := parse_device_kind s }
    | none => pure descriptor
  let descriptor ←
    match binding_object.lookup "kind" with
    | some v => do
        let s ← v.as_string
        pure { descriptor with kind := parse_binding_kind s }
    | none => pure descriptor
  let descriptor ←
    match binding_object.lookup "control" with
    | some v => do
        let s ← v.as_string
        pure { descriptor with control := s }
    | none => Except.error "binding missing 'control'"
  let descriptor :=
    match binding_object.lookup "scale" with
    | some v => { descriptor with scale := v.as_number 1 }
    | none => descriptor
  let descriptor :=
    match binding_object.lookup "deadzone" with
    | some v => { descriptor with deadzone := v.as_number (1/10) }
    | none => descriptor
  let descriptor :=
    match binding_object.lookup "toggle" with
    | some v => { descriptor with toggle := v.as_bool false }
    | none => descriptor
  let descriptor ←
    match binding_object.lookup "interpretation" with
    | some v => do
        let s ← v.as_string
        pure { descriptor with interpretation := parse_interpretation s }
    | none => pure descriptor
  pure descriptor

/-- The outer action loop of `InputMappingSpec::FromJson` (lines 444-495):
one `ActionBindingSpec` from one action entry (note the `"action"` key is
accepted as an alternative to `"id"`). -/
def action_from_json (value : Json) : Except String ActionBindingSpec := do
  let action_object ← value.as_object
  let action : ActionBindingSpec := {}
  let action ←
    match action_object.lookup "id" with
    | some v => do
        let s ← v.as_string
        pure { action with id := s }
    | none =>
        match action_object.lookup "action" with
        | some v => do
            let s ← v.as_string
            pure { action with id := s }
        | none => Except.error "action entry missing 'id'"
  let action :=
    match action_object.lookup "smoothing" with
    | some v => { action with smoothing_window := v.as_number 0 }
    | none => action
  let action :=
    match action_object.lookup "analog_threshold" with
    | some v => { action with analog_threshold := v.as_number (1/5) }
    | none => action
  match action_object.lookup "bindings" with
  | none => Except.error "action entry missing 'bindings'"
  | some bindings_value => do
      let binding_array ← bindings_value.as_array
      let bindings ← binding_array.mapM binding_from_json
      pure { action with bindings := bindings }

/-- `InputMappingSpec::FromJson` on the parsed document (lines 436-496):
requires a root object with an `"actions"` array and ingests every action;
any error aborts the whole ingestion (no partial table). -/
def InputMappingSpec.FromJson (root : Json) : Except String InputMappingSpec := do
  let object ← root.as_object
  match object.lookup "actions" with
  | none => Except.error "input mapping JSON missing 'actions' array"
  | some actions_value => do
      let actions_array ← actions_value.as_array
      let actions ← actions_array.mapM action_from_json
      pure { actions := actions }

/-- The clamped pre-smoothing value of one evaluation: the per-binding
accumulation, the toggle contribution (lines 601-617), and the clamp of
line 619 — everything `compute_state` does before smoothing. -/
def clamped_value (action : RuntimeAction) (state : RawInputState) : ℚ :=
  let acc := accumulate action state
  clampQ (if acc.has_toggle && acc.toggle_value then acc.value + acc.toggle_scale
    else acc.value) (-1) 1

/-! ## Concrete scenarios -/

/-- A snapshot where key `KeyA` is just pressed and key `KeyB` is just
released in the same frame. -/
def edge_clash_state : RawInputState :=
  { keyboard := { keys :=
      [("KeyA", { pressed := true, was_pressed := false }),
       ("KeyB", { pressed := false, was_pressed := true })] } }

/-- An action with two non-toggle keyboard button bindings, `KeyA` and
`KeyB`, fresh runtime memory. -/
def edge_clash_action : RuntimeAction :=
  { spec := { id := "jump" },
    bindings := [RuntimeBinding.mk { control := "KeyA" },
                 RuntimeBinding.mk { control := "KeyB" }] }

/-- An action with one non-toggle button binding and `analog_threshold` 0. -/
def single_button_action : RuntimeAction :=
  { spec := { id := "fire", analog_threshold := 0 },
    bindings := [RuntimeBinding.mk { control := "KeyA" }] }

/-- A single toggle button binding on keyboard `KeyT`, `scale` 1. -/
def toggle_action : RuntimeAction :=
  { spec := { id := "cloak" },
    bindings := [RuntimeBinding.mk { control := "KeyT", toggle := true }] }

/-- Frame where `KeyT` is just pressed. -/
def toggle_press : RawInputState :=
  { keyboard := { keys := [("KeyT", { pressed := true, was_pressed := false })] } }

/-- Frame where `KeyT` is just released. -/
def toggle_release : RawInputState :=
  { keyboard := { keys := [("KeyT", { pressed := false, was_pressed := true })] } }

/-- A digital gamepad axis binding: `left_x`, `deadzone` 0.25, `scale` 1. -/
def digital_descriptor : BindingDescriptor :=
  { device := DeviceKind.Gamepad, kind := BindingKind.Axis, control := "left_x",
    deadzone := 1/4, interpretation := AxisInterpretation.Digital }

/-- An action whose only binding is `digital_descriptor`. -/
def digital_action : RuntimeAction :=
  { spec := { id := "steer" }, bindings := [RuntimeBinding.mk digital_descriptor] }

/-- A snapshot with the gamepad axis `left_x` at raw value 0.3. -/
def digital_state : RawInputState :=
  { gamepad := { axes := [("left_x", 3/10)] } }

/-- An action with `smoothing_window` 1 and a single keyboard button binding
`KeyW`, `scale` 1. -/
def smoothing_action : RuntimeAction :=
  { spec := { id := "aim", smoothing_window := 1 },
    bindings := [RuntimeBinding.mk { control := "KeyW" }] }

/-- `KeyW` held (no edge), `delta_time` 0.5. -/
def held_half_dt : RawInputState :=
  { keyboard := { keys := [("KeyW", { pressed := true, was_pressed := true })] },
    delta_time := 1/2 }

/-- `KeyW` held (no edge), `delta_time` 2. -/
def held_two_dt : RawInputState :=
  { keyboard := { keys := [("KeyW", { pressed := true, was_pressed := true })] },
    delta_time := 2 }

/-- The binding-table spec that `smoothing_table` is loaded from. -/
def smoothing_spec : InputMappingSpec :=
  { actions :=
      [{ id := "aim", smoothing_window := 1, bindings := [{ control := "KeyW" }] }] }

/-- The action table loaded from `smoothing_spec`. -/
def smoothing_table : ActionTable :=
  load smoothing_spec

/-- The runtime cell `load smoothing_spec` builds for action `"aim"`. -/
def aim_runtime : RuntimeAction :=
  fresh_runtime
    { id := "aim", smoothing_window := 1, bindings := [{ control := "KeyW" }] }

/-- First of two consecutive `evaluate_action` calls on the same snapshot. -/
def eval_first : ActionState × ActionTable :=
  evaluate_action smoothing_table "aim" held_half_dt

/-- Second of two consecutive `evaluate_action` calls on the same snapshot. -/
def eval_second : ActionState × ActionTable :=
  evaluate_action eval_first.2 "aim" held_half_dt

/-- A document whose action carries the `"action"` key instead of `"id"`. -/
def alias_doc : Json :=
  Json.obj [("actions", Json.arr [Json.obj
    [("action", Json.str "dash"),
     ("bindings", Json.arr [Json.obj [("control", Json.str "Space")]])]])]

/-- A document whose action has neither `"id"` nor `"action"`. -/
def missing_id_doc : Json :=
  Json.obj [("actions", Json.arr [Json.obj
    [("bindings", Json.arr [Json.obj [("control", Json.str "Space")]])]])]

/-- A document whose action has no `"bindings"` array. -/
def missing_bindings_doc : Json :=
  Json.obj [("actions", Json.arr [Json.obj [("id", Json.str "dash")]])]

/-- A document whose binding has no `"control"`. -/
def missing_control_doc : Json :=
  Json.obj [("actions", Json.arr [Json.obj
    [("id", Json.str "dash"),
     ("bindings", Json.arr [Json.obj [("scale", Json.num 2)]])]])]

/-- A document with unrecognized `device`, `kind` and `interpretation`
strings on its only binding. -/
def odd_enum_doc : Json :=
  Json.obj [("actions", Json.arr [Json.obj
    [("id", Json.str "dash"),
     ("bindings", Json.arr [Json.obj
       [("control", Json.str "Space"), ("device", Json.str "joystick"),
        ("kind", Json.str "paddle"), ("interpretation", Json.str "fuzzy")]])]])]

/-! ## Helper lemmas -/

theorem clampQ_le (x lo hi : ℚ) (h : lo ≤ hi) : clampQ x lo hi ≤ hi := by
  unfold clampQ
  split_ifs with h1 h2
  · exact h
  · exact le_refl hi
  · exact le_of_not_lt h2

theorem le_clampQ (x lo hi : ℚ) (h : lo ≤ hi) : lo ≤ clampQ x lo hi := by
  unfold clampQ
  split_ifs with h1 h2
  · exact le_refl lo
  · exact h
  · exact le_of_not_lt h1

theorem lerp_bound (p v t : ℚ) (hp1 : -1 ≤ p) (hp2 : p ≤ 1) (hv1 : -1 ≤ v)
    (hv2 : v ≤ 1) (ht1 : 0 ≤ t) (ht2 : t ≤ 1) :
    -1 ≤ p + (v - p) * t ∧ p + (v - p) * t ≤ 1 := by
  constructor
  · nlinarith [mul_nonneg (sub_nonneg.2 hv1) ht1, mul_nonneg (sub_nonneg.2 hp1) (sub_nonneg.2 ht2)]
  · nlinarith [mul_nonneg (sub_nonneg.2 hv2) ht1, mul_nonneg (sub_nonneg.2 hp2) (sub_nonneg.2 ht2)]

section MainTheorems

attribute [local semireducible] Rat.mul Rat.inv Rat.add Rat.sub

/-- C5: smoothing is linear interpolation with clamped step: when
`smoothing_window > 0` and `delta_time > 0` the emitted value is
`previous_value + (clamped_value - previous_value) * clamp(delta_time /
smoothing_window, 0, 1)`, otherwise it is the clamped pre-smoothing value;
in particular with window 1, target 1 and `previous_value` 0, `delta_time`
0.5 yields 0.5 and `delta_time` 2 yields 1. -/
theorem c5_smoothing_lerp :
    (∀ (action : RuntimeAction) (state : RawInputState),
      (compute_state action state).1.value =
        if action.spec.smoothing_window > 0 ∧ state.delta_time > 0 then
          action.previous_value +
            (clamped_value action state - action.previous_value) *
              clampQ (state.delta_time / action.spec.smoothing_window) 0 1
        else clamped_value action state) ∧
    (compute_state smoothing_action held_half_dt).1.value = 1/2 ∧
    (compute_state smoothing_action held_two_dt).1.value = 1 := by
  refine ⟨fun action state => rfl, by decide, by decide⟩

/-- C4: for a digital-interpretation axis binding as an action's only
binding, whenever the raw reading is beyond the deadzone the accumulated
pre-smoothing value is `scale` with the reading's sign kept (so deadzone
0.25, scale 1 and reading 0.3 give exactly +1, see the witness). -/
theorem c4_digital_axis_saturates (d : BindingDescriptor) (action : RuntimeAction)
    (state : RawInputState) (hkind : d.kind = BindingKind.Axis)
    (hinterp : d.interpretation = AxisInterpretation.Digital)
    (hbind : action.bindings = [RuntimeBinding.mk d])
    (hbeyond : d.deadzone < fabsQ (extract_axis_value d state)) :
    (accumulate action state).value =
      d.scale * (if 0 ≤ extract_axis_value d state then 1 else -1) := by
  have hnotle : ¬(fabsQ (extract_axis_value d state) ≤ d.deadzone) := not_le.2 hbeyond
  simp [accumulate, hbind, fold_binding, hkind, hinterp, hnotle, hbeyond, ge_iff_le]

/-- C4 witness: deadzone 0.25, scale 1, gamepad axis reading 0.3: the
accumulated pre-smoothing value is exactly +1. -/
theorem c4_digital_axis_saturates_witness :
    (accumulate digital_action digital_state).value = 1 := by
  have h := c4_digital_axis_saturates digital_descriptor digital_action digital_state
    rfl rfl rfl (by decide)
  rw [h]
  decide

/-- C6: `rebind` on an action id missing from the table fails with the named
error `"unknown action: " ++ id` (returning no table at all, so the action
table is untouched); on an id present in the table it always succeeds, and
only that action's binding list is replaced. -/
theorem c6_rebind_unknown_fails (table : ActionTable) (id : String)
    (bindings : List BindingDescriptor) :
    (table.find id = none →
      rebind table id bindings = Except.error ("unknown action: " ++ id)) ∧
    (∀ runtime, table.find id = some runtime →
      rebind table id bindings =
        Except.ok (table.replace id
          { runtime with bindings := bindings.map RuntimeBinding.mk })) := by
  constructor
  · intro h
    simp [rebind, h]
  · intro runtime h
    simp [rebind, h]

/-- C6 witness: rebinding `"dash"` in an empty table reports the named
error; rebinding it when present succeeds. -/
theorem c6_rebind_unknown_fails_witness :
    rebind ([] : ActionTable) "dash" [] = Except.error ("unknown action: " ++ "dash") ∧
    rebind [("dash", ({} : RuntimeAction))] "dash" [{ control := "Space" }] =
      Except.ok (ActionTable.replace [("dash", ({} : RuntimeAction))] "dash"
        { ({} : RuntimeAction) with
          bindings := List.map RuntimeBinding.mk [{ control := "Space" }] }) :=
  ⟨(c6_rebind_unknown_fails [] "dash" []).1 rfl,
   (c6_rebind_unknown_fails [("dash", {})] "dash" [{ control := "Space" }]).2 {} rfl⟩

theorem button_edges_exclusive (d : BindingDescriptor) (state : RawInputState) :
    ¬(extract_button_triggered d state = true ∧
      extract_button_released d state = true) := by
  obtain ⟨dev, kind, control, scale, deadzone, tog, interp⟩ := d
  rintro ⟨h1, h2⟩
  cases dev <;>
    simp_all [extract_button_triggered, extract_button_released,
      ButtonState.just_pressed, ButtonState.just_released]

/-- C1 counterexample: an action with two button bindings, one just pressed
and one just released in the same frame, emits `triggered` and `released`
both true. -/
theorem c1_trigger_release_clash :
    (compute_state edge_clash_action edge_clash_state).1.triggered = true ∧
    (compute_state edge_clash_action edge_clash_state).1.released = true := by
  decide

/-- C1 amended: for an action whose only binding is a single non-toggle
button binding and whose `analog_threshold` is not positive, `triggered`
and `released` are never both true in the same frame (with several
bindings, or with the analog-threshold synthesis active, both flags can be
true in one frame). -/
theorem c1_single_button_edges_exclusive (d : BindingDescriptor)
    (action : RuntimeAction) (state : RawInputState)
    (hkind : d.kind = BindingKind.Button) (htog : d.toggle = false)
    (hbind : action.bindings = [RuntimeBinding.mk d])
    (hth : action.spec.analog_threshold ≤ 0) :
    ¬((compute_state action state).1.triggered = true ∧
      (compute_state action state).1.released = true) := by
  have hth' : ¬(action.spec.analog_threshold > 0) := not_lt.2 hth
  have ht : (compute_state action state).1.triggered = extract_button_triggered d state := by
    simp [compute_state, accumulate, hbind, fold_binding, hkind, htog, hth']
  have hr : (compute_state action state).1.released = extract_button_released d state := by
    simp [compute_state, accumulate, hbind, fold_binding, hkind, htog, hth']
  rw [ht, hr]
  exact button_edges_exclusive d state

/-- C1 witness: a concrete single-button action on a frame with an edge. -/
theorem c1_single_button_edges_exclusive_witness :
    ¬((compute_state single_button_action edge_clash_state).1.triggered = true ∧
      (compute_state single_button_action edge_clash_state).1.released = true) :=
  c1_single_button_edges_exclusive { control := "KeyA" } single_button_action
    edge_clash_state rfl rfl rfl (by decide)

/-- C3 counterexample: in the press/release/press trace of a single toggle
binding, `triggered` is also true on the second flip frame (the raw
just-pressed edge), and `released` is already true on the middle frame (the
raw just-released edge) — not only on the flip frames the claim names. -/
theorem c3_toggle_trace_counterexample :
    (((run_frames toggle_action [toggle_press, toggle_release, toggle_press]).1.getD 2 {}).triggered
        = true) ∧
    (((run_frames toggle_action [toggle_press, toggle_release, toggle_press]).1.getD 1 {}).released
        = true) := by
  decide

/-- C3 amended: two just-pressed edges flip `toggle_state` true then false,
`value` is 1 on/after the first flip and 0 on/after the second; but
`triggered` is true on both flip frames (the toggle control's raw
just-pressed edge is ORed in), and `released` is true on the release frame
between the flips as well as on the second flip frame. -/
theorem c3_toggle_trace_amended :
    (run_frames toggle_action [toggle_press, toggle_release, toggle_press]).1 =
      [{ value := 1, active := true, triggered := true, released := false },
       { value := 1, active := true, triggered := false, released := true },
       { value := 0, active := true, triggered := true, released := true }] ∧
    (run_frames toggle_action [toggle_press]).2.toggle_state = true ∧
    (run_frames toggle_action [toggle_press, toggle_release, toggle_press]).2.toggle_state
      = false := by
  decide

theorem fold_binding_pressed_mono (pv : ℚ) (state : RawInputState) (acc : EvalAccum)
    (b : RuntimeBinding) (h : acc.any_pressed = true) :
    (fold_binding pv state acc b).any_pressed = true := by
  simp only [fold_binding]
  split_ifs <;> simp [h]

theorem fold_binding_triggered_mono (pv : ℚ) (state : RawInputState) (acc : EvalAccum)
    (b : RuntimeBinding) (h : acc.any_triggered = true) :
    (fold_binding pv state acc b).any_triggered = true := by
  simp only [fold_binding]
  split_ifs <;> simp [h]

theorem fold_binding_released_mono (pv : ℚ) (state : RawInputState) (acc : EvalAccum)
    (b : RuntimeBinding) (h : acc.any_released = true) :
    (fold_binding pv state acc b).any_released = true := by
  simp only [fold_binding]
  split_ifs <;> simp [h]

theorem fold_binding_fires_pressed (pv : ℚ) (state : RawInputState) (acc : EvalAccum)
    (b : RuntimeBinding) (hkind : b.descriptor.kind = BindingKind.Button)
    (hp : extract_button_pressed b.descriptor state = true) :
    (fold_binding pv state acc b).any_pressed = true := by
  simp only [fold_binding, hkind]
  split_ifs <;> simp [hp]

theorem fold_binding_fires_triggered (pv : ℚ) (state : RawInputState) (acc : EvalAccum)
    (b : RuntimeBinding) (hkind : b.descriptor.kind = BindingKind.Button)
    (ht : extract_button_triggered b.descriptor state = true) :
    (fold_binding pv state acc b).any_triggered = true := by
  simp only [fold_binding, hkind]
  split_ifs <;> simp [ht]

theorem fold_binding_fires_released (pv : ℚ) (state : RawInputState) (acc : EvalAccum)
    (b : RuntimeBinding) (hkind : b.descriptor.kind = BindingKind.Button)
    (hr : extract_button_released b.descriptor state = true) :
    (fold_binding pv state acc b).any_released = true := by
  simp only [fold_binding, hkind]
  split_ifs <;> simp [hr]

theorem foldl_pressed_mono (pv : ℚ) (state : RawInputState) (l : List RuntimeBinding)
    (acc : EvalAccum) (h : acc.any_pressed = true) :
    (l.foldl (fold_binding pv state) acc).any_pressed = true := by
  induction l generalizing acc with
  | nil => exact h
  | cons hd tl ih => exact ih _ (fold_binding_pressed_mono pv state acc hd h)

theorem foldl_triggered_mono (pv : ℚ) (state : RawInputState) (l : List RuntimeBinding)
    (acc : EvalAccum) (h : acc.any_triggered = true) :
    (l.foldl (fold_binding pv state) acc).any_triggered = true := by
  induction l generalizing acc with
  | nil => exact h
  | cons hd tl ih => exact ih _ (fold_binding_triggered_mono pv state acc hd h)

theorem foldl_released_mono (pv : ℚ) (state : RawInputState) (l : List RuntimeBinding)
    (acc : EvalAccum) (h : acc.any_released = true) :
    (l.foldl (fold_binding pv state) acc).any_released = true := by
  induction l generalizing acc with
  | nil => exact h
  | cons hd tl ih => exact ih _ (fold_binding_released_mono pv state acc hd h)

theorem foldl_any_pressed_of_mem (pv : ℚ) (state : RawInputState)
    (l : List RuntimeBinding) (acc : EvalAccum) (b : RuntimeBinding) (hb : b ∈ l)
    (hkind : b.descriptor.kind = BindingKind.Button)
    (hp : extract_button_pressed b.descriptor state = true) :
    (l.foldl (fold_binding pv state) acc).any_pressed = true := by
  induction l generalizing acc with
  | nil => cases hb
  | cons hd tl ih =>
      rcases List.mem_cons.1 hb with rfl | hmem
      · exact foldl_pressed_mono pv state tl _
          (fold_binding_fires_pressed pv state acc b hkind hp)
      · exact ih _ hmem

theorem foldl_any_triggered_of_mem (pv : ℚ) (state : RawInputState)
    (l : List RuntimeBinding) (acc : EvalAccum) (b : RuntimeBinding) (hb : b ∈ l)
    (hkind : b.descriptor.kind = BindingKind.Button)
    (ht : extract_button_triggered b.descriptor state = true) :
    (l.foldl (fold_binding pv state) acc).any_triggered = true := by
  induction l generalizing acc with
  | nil => cases hb
  | cons hd tl ih =>
      rcases List.mem_cons.1 hb with rfl | hmem
      · exact foldl_triggered_mono pv state tl _
          (fold_binding_fires_triggered pv state acc b hkind ht)
      · exact ih _ hmem

theorem foldl_any_released_of_mem (pv : ℚ) (state : RawInputState)
    (l : List RuntimeBinding) (acc : EvalAccum) (b : RuntimeBinding) (hb : b ∈ l)
    (hkind : b.descriptor.kind = BindingKind.Button)
    (hr : extract_button_released b.descriptor state = true) :
    (l.foldl (fold_binding pv state) acc).any_released = true := by
  induction l generalizing acc with
  | nil => cases hb
  | cons hd tl ih =>
      rcases List.mem_cons.1 hb with rfl | hmem
      · exact foldl_released_mono pv state tl _
          (fold_binding_fires_released pv state acc b hkind hr)
      · exact ih _ hmem

/-- C8: every button binding of an action — toggle bindings included — has
its raw pressed flag and raw just-pressed / just-released edges ORed into
the emitted `active` / `triggered` / `released`, regardless of the current
toggle state: physically holding a toggle binding's button always makes the
action `active`. -/
theorem c8_button_flags_always_or (action : RuntimeAction) (state : RawInputState)
    (b : RuntimeBinding) (hb : b ∈ action.bindings)
    (hkind : b.descriptor.kind = BindingKind.Button) :
    (extract_button_pressed b.descriptor state = true →
      (compute_state action state).1.active = true) ∧
    (extract_button_triggered b.descriptor state = true →
      (compute_state action state).1.triggered = true) ∧
    (extract_button_released b.descriptor state = true →
      (compute_state action state).1.released = true) := by
  refine ⟨fun hp => ?_, fun ht => ?_, fun hr => ?_⟩
  · have h : (accumulate action state).any_pressed = true :=
      foldl_any_pressed_of_mem action.previous_value state action.bindings _ b hb hkind hp
    simp [compute_state, accumulate] at h ⊢
    simp [h]
  · have h : (accumulate action state).any_triggered = true :=
      foldl_any_triggered_of_mem action.previous_value state action.bindings _ b hb hkind ht
    simp [compute_state, accumulate] at h ⊢
    simp [h]
  · have h : (accumulate action state).any_released = true :=
      foldl_any_released_of_mem action.previous_value state action.bindings _ b hb hkind hr
    simp [compute_state, accumulate] at h ⊢
    simp [h]

/-- C8 witness: the toggle binding's button held (just pressed) makes the
action active. -/
theorem c8_button_flags_always_or_witness :
    (compute_state toggle_action toggle_press).1.active = true :=
  (c8_button_flags_always_or toggle_action toggle_press
    (RuntimeBinding.mk { control := "KeyT", toggle := true }) (by decide) rfl).1 (by decide)

theorem compute_state_value_eq (action : RuntimeAction) (state : RawInputState) :
    (compute_state action state).1.value =
      if action.spec.smoothing_window > 0 ∧ state.delta_time > 0 then
        action.previous_value +
          (clamped_value action state - action.previous_value) *
            clampQ (state.delta_time / action.spec.smoothing_window) 0 1
      else clamped_value action state :=
  rfl

theorem compute_state_commits_value (action : RuntimeAction) (state : RawInputState) :
    (compute_state action state).2.previous_value = (compute_state action state).1.value :=
  rfl

theorem clamped_value_bound (action : RuntimeAction) (state : RawInputState) :
    -1 ≤ clamped_value action state ∧ clamped_value action state ≤ 1 := by
  unfold clamped_value
  exact ⟨le_clampQ _ _ _ (by norm_num), clampQ_le _ _ _ (by norm_num)⟩

theorem compute_state_value_bound (action : RuntimeAction) (state : RawInputState)
    (h1 : -1 ≤ action.previous_value) (h2 : action.previous_value ≤ 1) :
    -1 ≤ (compute_state action state).1.value ∧
      (compute_state action state).1.value ≤ 1 := by
  rw [compute_state_value_eq]
  rcases clamped_value_bound action state with ⟨hv1, hv2⟩
  split_ifs with hc
  · have ht1 : 0 ≤ clampQ (state.delta_time / action.spec.smoothing_window) 0 1 :=
      le_clampQ _ _ _ (by norm_num)
    have ht2 : clampQ (state.delta_time / action.spec.smoothing_window) 0 1 ≤ 1 :=
      clampQ_le _ _ _ (by norm_num)
    exact lerp_bound _ _ _ h1 h2 hv1 hv2 ht1 ht2
  · exact ⟨hv1, hv2⟩

theorem run_frames_value_bound (frames : List RawInputState) (action : RuntimeAction)
    (h1 : -1 ≤ action.previous_value) (h2 : action.previous_value ≤ 1) :
    ∀ st ∈ (run_frames action frames).1, -1 ≤ st.value ∧ st.value ≤ 1 := by
  induction frames generalizing action with
  | nil =>
      intro st hst
      simp only [run_frames] at hst
      cases hst
  | cons f rest ih =>
      intro st hst
      simp only [run_frames] at hst
      rcases List.mem_cons.1 hst with rfl | hmem
      · exact compute_state_value_bound action f h1 h2
      · have hb := compute_state_value_bound action f h1 h2
        have hc := compute_state_commits_value action f
        exact ih ((compute_state action f).2) (by rw [hc]; exact hb.1)
          (by rw [hc]; exact hb.2) st hmem

theorem lookup_mem_values (l : List (String × RuntimeAction)) (k : String)
    (v : RuntimeAction) (h : List.lookup k l = some v) : ∃ p ∈ l, p.2 = v := by
  induction l with
  | nil => cases h
  | cons hd tl ih =>
      obtain ⟨a, b⟩ := hd
      rw [List.lookup] at h
      cases hbeq : (k == a) with
      | false =>
          rw [hbeq] at h
          obtain ⟨p, hp, he⟩ := ih h
          exact ⟨p, List.mem_cons_of_mem _ hp, he⟩
      | true =>
          rw [hbeq] at h
          injection h with h
          exact ⟨(a, b), List.mem_cons_self _ _, h⟩

theorem load_go_previous_value_zero (actions : List ActionBindingSpec) (t : ActionTable)
    (h : ∀ p ∈ t, p.2.previous_value = 0) :
    ∀ p ∈ actions.foldl
        (fun (table : ActionTable) action => table.emplace action.id (fresh_runtime action)) t,
      p.2.previous_value = 0 := by
  induction actions generalizing t with
  | nil => exact h
  | cons a rest ih =>
      refine ih _ ?_
      intro p hp
      have hp' : p ∈ ActionTable.emplace t a.id (fresh_runtime a) := hp
      unfold ActionTable.emplace at hp'
      split_ifs at hp'
      · exact h p hp'
      · rcases List.mem_cons.1 hp' with rfl | hmem
        · rfl
        · exact h p hmem

/-- C2: for every action loaded from a binding table (so starting with
`previous_value = 0`) and every sequence of frames, every emitted
`ActionState.value` stays in `[-1, 1]`; and the clamped pre-smoothing value
is in `[-1, 1]` for every action and snapshot unconditionally. -/
theorem c2_value_in_range (spec : InputMappingSpec) (id : String)
    (runtime : RuntimeAction) (frames : List RawInputState)
    (h : (load spec).find id = some runtime) :
    (∀ action state, -1 ≤ clamped_value action state ∧ clamped_value action state ≤ 1) ∧
    ∀ st ∈ (run_frames runtime frames).1, -1 ≤ st.value ∧ st.value ≤ 1 := by
  refine ⟨clamped_value_bound, ?_⟩
  have h0 : runtime.previous_value = 0 := by
    obtain ⟨p, hp, hv⟩ := lookup_mem_values (load spec) id runtime h
    rw [← hv]
    exact load_go_previous_value_zero spec.actions [] (by intro p hp; cases hp) p hp
  exact run_frames_value_bound frames runtime (by rw [h0]; norm_num) (by rw [h0]; norm_num)

/-- C2 witness: the loaded `"aim"` action evaluated over two frames emits a
first value in range. -/
theorem c2_value_in_range_witness :
    -1 ≤ ((run_frames aim_runtime [held_half_dt, held_two_dt]).1.getD 0 {}).value ∧
    ((run_frames aim_runtime [held_half_dt, held_two_dt]).1.getD 0 {}).value ≤ 1 :=
  (c2_value_in_range smoothing_spec "aim" aim_runtime [held_half_dt, held_two_dt]
    (by decide)).2 _ (by decide)

theorem find_replace_self (table : ActionTable) (id : String) (v : RuntimeAction)
    (h : (ActionTable.find table id).isSome = true) :
    ActionTable.find (ActionTable.replace table id v) id = some v := by
  induction table with
  | nil => simp [ActionTable.find, List.lookup] at h
  | cons hd tl ih =>
      obtain ⟨k, r⟩ := hd
      by_cases hk : k = id
      · subst hk
        simp only [ActionTable.replace, List.map_cons, beq_self_eq_true, if_true]
        simp [ActionTable.find, List.lookup]
      · have hk1 : (k == id) = false := beq_eq_false_iff_ne.2 hk
        have hk2 : (id == k) = false := beq_eq_false_iff_ne.2 (Ne.symm hk)
        simp only [ActionTable.replace, List.map_cons, hk1, Bool.false_eq_true,
          if_false] at *
        simp only [ActionTable.find, List.lookup, hk2] at h ⊢
        exact ih h

/-- C9: `evaluate_one` on a known action is a full state-advancing frame
step: its emitted state is `compute_state`'s, and the table it leaves behind
holds that action's updated runtime memory; concretely, two consecutive
calls on the `"aim"` action with the identical snapshot return 0.5 then
0.75 — the call is not idempotent on engine state. -/
theorem c9_evaluate_one_commits (table : ActionTable) (id : String)
    (state : RawInputState) (runtime : RuntimeAction)
    (h : ActionTable.find table id = some runtime) :
    ((evaluate_action table id state).1 = (compute_state runtime state).1 ∧
     ActionTable.find (evaluate_action table id state).2 id =
       some (compute_state runtime state).2) ∧
    (eval_first.1.value = 1/2 ∧ eval_second.1.value = 3/4 ∧
     eval_first.1.value ≠ eval_second.1.value) := by
  refine ⟨⟨?_, ?_⟩, by decide, by decide, by decide⟩
  · simp [evaluate_action, h]
  · have hs : (ActionTable.find table id).isSome = true := by rw [h]; rfl
    simp only [evaluate_action, h]
    exact find_replace_self table id _ hs

/-- C9 witness: the commit equation at the concrete loaded table. -/
theorem c9_evaluate_one_commits_witness :
    ActionTable.find (evaluate_action smoothing_table "aim" held_half_dt).2 "aim" =
      some (compute_state aim_runtime held_half_dt).2 :=
  ((c9_evaluate_one_commits smoothing_table "aim" held_half_dt aim_runtime
    (by decide)).1).2

theorem mem_keys_find_isSome (t : ActionTable) (k : String)
    (h : k ∈ List.map Prod.fst t) : (ActionTable.find t k).isSome = true := by
  induction t with
  | nil => cases h
  | cons hd tl ih =>
      obtain ⟨a, b⟩ := hd
      rw [List.map_cons] at h
      rcases List.mem_cons.1 h with rfl | hmem
      · simp [ActionTable.find, List.lookup]
      · by_cases hk : k = a
        · subst hk
          simp [ActionTable.find, List.lookup]
        · have hk2 : (k == a) = false := beq_eq_false_iff_ne.2 hk
          simp only [ActionTable.find, List.lookup, hk2]
          exact ih hmem

theorem load_go_find_some (actions : List ActionBindingSpec) (t : ActionTable)
    (id : String) (v : RuntimeAction) (h : ActionTable.find t id = some v) :
    ActionTable.find
      (actions.foldl (fun (table : ActionTable) action => table.emplace action.id (fresh_runtime action)) t)
      id = some v := by
  induction actions generalizing t with
  | nil => exact h
  | cons a rest ih =>
      rw [List.foldl_cons]
      apply ih
      show ActionTable.find (ActionTable.emplace t a.id (fresh_runtime a)) id = some v
      unfold ActionTable.emplace
      split_ifs with hc
      · exact h
      · have hne : (id == a.id) = false := by
          refine beq_eq_false_iff_ne.2 fun he => ?_
          rw [← he] at hc
          rw [ActionTable.find] at h
          rw [h] at hc
          exact hc rfl
        simp only [ActionTable.find, List.lookup, hne]
        exact h

theorem load_go_find_none (actions : List ActionBindingSpec) (t : ActionTable)
    (id : String) (h : ActionTable.find t id = none) :
    ActionTable.find
      (actions.foldl (fun (table : ActionTable) action => table.emplace action.id (fresh_runtime action)) t)
      id = (actions.find? (fun a => a.id == id)).map fresh_runtime := by
  induction actions generalizing t with
  | nil => simpa using h
  | cons a rest ih =>
      rw [List.foldl_cons, List.find?]
      cases hpa : (a.id == id) with
      | true =>
          have hid : a.id = id := beq_iff_eq.1 hpa
          have hfind : ActionTable.find (ActionTable.emplace t a.id (fresh_runtime a)) id =
              some (fresh_runtime a) := by
            unfold ActionTable.emplace
            rw [hid]
            rw [show List.lookup id t = ActionTable.find t id from rfl, h]
            simp [ActionTable.find, List.lookup]
          simpa using load_go_find_some rest _ id (fresh_runtime a) hfind
      | false =>
          have hfind : ActionTable.find (ActionTable.emplace t a.id (fresh_runtime a)) id = none := by
            unfold ActionTable.emplace
            split_ifs
            · exact h
            · have hne : (id == a.id) = false := by
                refine beq_eq_false_iff_ne.2 fun he => ?_
                rw [beq_eq_false_iff_ne] at hpa
                exact hpa he.symm
              simp only [ActionTable.find, List.lookup, hne]
              exact h
          simpa using ih _ hfind

theorem load_go_keys_nodup (actions : List ActionBindingSpec) (t : ActionTable)
    (h : (List.map Prod.fst t).Nodup) :
    (List.map Prod.fst
      (actions.foldl (fun (table : ActionTable) action => table.emplace action.id (fresh_runtime action)) t)).Nodup := by
  induction actions generalizing t with
  | nil => exact h
  | cons a rest ih =>
      rw [List.foldl_cons]
      apply ih
      show (List.map Prod.fst (ActionTable.emplace t a.id (fresh_runtime a))).Nodup
      unfold ActionTable.emplace
      split_ifs with hc
      · exact h
      · rw [List.map_cons]
        refine List.nodup_cons.2 ⟨fun hmem => ?_, h⟩
        exact hc (mem_keys_find_isSome t a.id hmem)

/-- C10: loading a spec whose actions repeat an id keeps only the first
occurrence — the table entry for any id is the first matching spec entry
turned into a fresh runtime cell (later duplicates are silently discarded;
`load` is total, so no error is ever raised) — and the loaded table has one
entry per distinct id. -/
theorem c10_load_first_wins (spec : InputMappingSpec) (id : String) :
    ActionTable.find (load spec) id =
      (spec.actions.find? (fun a => a.id == id)).map fresh_runtime ∧
    (List.map Prod.fst (load spec)).Nodup := by
  constructor
  · unfold load
    exact load_go_find_none spec.actions [] id rfl
  · unfold load
    exact load_go_keys_nodup spec.actions [] (by simp)

/-- C7 counterexample: an action entry that lacks `"id"` but carries the
`"action"` key ingests successfully — `FromJson` accepts `"action"` as an
alias for `"id"`, so lacking `"id"` does not by itself fail ingestion. -/
theorem c7_action_alias_counterexample :
    InputMappingSpec.FromJson alias_doc =
      Except.ok { actions := [{ id := "dash", bindings := [{ control := "Space" }] }] } := by
  rfl

/-- C7 amended: unrecognized device / kind / interpretation strings map to
the defaults (Keyboard / Button / Analog) without failing; an action lacking
both `"id"` and its alias `"action"` fails with a descriptive error, as does
an action lacking `"bindings"` and a binding lacking `"control"`; ingestion
returns either one whole table or an error, never a partial table. -/
theorem c7_ingestion_policy_amended :
    (∀ s : String, s ≠ "mouse" → s ≠ "gamepad" → s ≠ "controller" →
      parse_device_kind s = DeviceKind.Keyboard) ∧
    (∀ s : String, s ≠ "axis" → s ≠ "pointer" →
      parse_binding_kind s = BindingKind.Button) ∧
    (∀ s : String, s ≠ "digital" → s ≠ "binary" →
      parse_interpretation s = AxisInterpretation.Analog) ∧
    (∀ fields : List (String × Json), List.lookup "id" fields = none →
      List.lookup "action" fields = none →
      action_from_json (Json.obj fields) = Except.error "action entry missing 'id'") ∧
    (∀ (fields : List (String × Json)) (s : String),
      List.lookup "id" fields = some (Json.str s) →
      List.lookup "bindings" fields = none →
      action_from_json (Json.obj fields) = Except.error "action entry missing 'bindings'") ∧
    (∀ fields : List (String × Json), List.lookup "device" fields = none →
      List.lookup "kind" fields = none → List.lookup "control" fields = none →
      binding_from_json (Json.obj fields) = Except.error "binding missing 'control'") ∧
    (InputMappingSpec.FromJson missing_id_doc =
      Except.error "action entry missing 'id'") ∧
    (InputMappingSpec.FromJson missing_bindings_doc =
      Except.error "action entry missing 'bindings'") ∧
    (InputMappingSpec.FromJson missing_control_doc =
      Except.error "binding missing 'control'") ∧
    (InputMappingSpec.FromJson odd_enum_doc =
      Except.ok { actions := [{ id := "dash", bindings := [{ control := "Space" }] }] }) := by
  refine ⟨?_, ?_, ?_, ?_, ?_, ?_, by rfl, by rfl, by rfl, by rfl⟩
  · intro s h1 h2 h3
    simp [parse_device_kind, h1, h2, h3]
  · intro s h1 h2
    simp [parse_binding_kind, h1, h2]
  · intro s h1 h2
    simp [parse_interpretation, h1, h2]
  · intro fields h1 h2
    simp [action_from_json, Json.as_object, h1, h2, Bind.bind, Except.bind,
      Pure.pure, Except.pure]
  · intro fields s h1 h2
    cases hs : List.lookup "smoothing" fields <;>
      cases ha : List.lookup "analog_threshold" fields <;>
        simp [action_from_json, Json.as_object, Json.as_string, h1, h2, hs, ha,
          Bind.bind, Except.bind, Pure.pure, Except.pure]
  · intro fields h1 h2 h3
    simp [binding_from_json, Json.as_object, h1, h2, h3, Bind.bind, Except.bind,
      Pure.pure, Except.pure]

/-- C7 witness: an unknown device string falls back to Keyboard, and an
action object with neither `"id"` nor `"action"` is rejected. -/
theorem c7_ingestion_policy_amended_witness :
    parse_device_kind "joystick" = DeviceKind.Keyboard ∧
    action_from_json (Json.obj [("bindings", Json.arr [])]) =
      Except.error "action entry missing 'id'" :=
  ⟨c7_ingestion_policy_amended.1 "joystick" (by decide) (by decide) (by decide),
   c7_ingestion_policy_amended.2.2.2.1 [("bindings", Json.arr [])] rfl rfl⟩

end MainTheorems

end Nightfall.Input
